import Mathlib

/-!
Shallow embedding of `src/Branch_Bound.cpp` (branch-and-bound ILP solver with
an embedded Big-M simplex solver).  `double` is modelled as `ℚ`; the C++
numeric literals (`1e-10`, `1e-6`, `1e30`, `10000`) become exact rationals.
`std::vector` indexing is modelled with `List.getD` (the source always indexes
in bounds on the paths exercised here).  The `std::sort` call on the node
queue is unstable with unspecified tie order; it is modelled as the stable
insertion sort below, which is one legal execution of the source.
-/

set_option allowUnsafeReducibility true
attribute [semireducible] Rat.add Rat.sub Rat.mul Rat.inv
set_option maxRecDepth 100000

namespace BranchBound

/-- `const double EPSILON = 1e-10` from the source. -/
def EPSILON : ℚ := 1 / 10 ^ 10

/-- `const double BIG_M = 10000` from the source. -/
def BIG_M : ℚ := 10000

/-- The looser `1e-6` tolerance used for feasibility and integrality checks. -/
def FEAS_TOL : ℚ := 1 / 10 ^ 6

/-- Input data of `SimplexSolver` (constructor arguments): objective
coefficients, constraint coefficient rows, right-hand sides, constraint
types (`1` = `<=`, `2` = `>=`, otherwise `=`), and the direction flag. -/
structure SimplexInput where
  objective : List ℚ
  constraints : List (List ℚ)
  rhs : List ℚ
  constraintTypes : List ℕ
  isMaximization : Bool
deriving DecidableEq

/-- `numSlack` computed in `createInitialTableau`: one slack per `<=` row. -/
def numSlackOf (inp : SimplexInput) : ℕ :=
  (inp.constraintTypes.filter (fun t => t = 1)).length

/-- `numSurplus` computed in `createInitialTableau`: one surplus per `>=` row. -/
def numSurplusOf (inp : SimplexInput) : ℕ :=
  (inp.constraintTypes.filter (fun t => t = 2)).length

/-- `numArtificial` computed in `createInitialTableau`: one artificial for
every row whose type is not `1`. -/
def numArtificialOf (inp : SimplexInput) : ℕ :=
  (inp.constraintTypes.filter (fun t => t ≠ 1)).length

/-- `totalVars = numVariables + numSlack + numSurplus + numArtificial`. -/
def totalVarsOf (inp : SimplexInput) : ℕ :=
  inp.objective.length + numSlackOf inp + numSurplusOf inp + numArtificialOf inp

/-- `numCols = totalVars + 1` (the extra column is the rhs column). -/
def numColsOf (inp : SimplexInput) : ℕ := totalVarsOf inp + 1

/-- Column of the slack variable of row `i`: the source's running `slackIdx`
starts at `numVariables` and is bumped once per earlier `<=` row. -/
def slackPos (inp : SimplexInput) (i : ℕ) : ℕ :=
  inp.objective.length + ((inp.constraintTypes.take i).filter (fun t => t = 1)).length

/-- Column of the surplus variable of row `i`: `surplusIdx` starts at
`numVariables + numSlack` and is bumped once per earlier `>=` row. -/
def surplusPos (inp : SimplexInput) (i : ℕ) : ℕ :=
  inp.objective.length + numSlackOf inp +
    ((inp.constraintTypes.take i).filter (fun t => t = 2)).length

/-- Column of the artificial variable of row `i`: `artificialIdx` starts at
`numVariables + numSlack + numSurplus` and is bumped once per earlier row of
type other than `1`. -/
def artPos (inp : SimplexInput) (i : ℕ) : ℕ :=
  inp.objective.length + numSlackOf inp + numSurplusOf inp +
    ((inp.constraintTypes.take i).filter (fun t => t ≠ 1)).length

/-- Body row `i` of the initial tableau: original coefficients in the first
`numVariables` columns, then the slack / surplus / artificial entries of the
row's type, and `rhs[i]` in the last column (copied unchanged). -/
def bodyRow (inp : SimplexInput) (i : ℕ) : List ℚ :=
  let numCols := numColsOf inp
  let coefs := inp.constraints.getD i []
  let base := (List.range numCols).map
    (fun j => if j < inp.objective.length then coefs.getD j 0 else 0)
  let t := inp.constraintTypes.getD i 0
  let r := inp.rhs.getD i 0
  if t = 1 then (base.set (slackPos inp i) 1).set (numCols - 1) r
  else if t = 2 then
    (((base.set (surplusPos inp i) (-1)).set (artPos inp i) 1).set (numCols - 1) r)
  else ((base.set (artPos inp i) 1).set (numCols - 1) r)

/-- Initial basic variable of row `i`: the slack for a `<=` row, otherwise
the artificial variable. -/
def basicVarOf (inp : SimplexInput) (i : ℕ) : ℕ :=
  if inp.constraintTypes.getD i 0 = 1 then slackPos inp i else artPos inp i

/-- `basicVars` after `createInitialTableau`. -/
def initialBasicVars (inp : SimplexInput) : List ℕ :=
  (List.range inp.constraints.length).map (basicVarOf inp)

/-- `varNames` entries pushed while processing row `i` (after the `x` names). -/
def rowNames (inp : SimplexInput) (i : ℕ) : List String :=
  let t := inp.constraintTypes.getD i 0
  if t = 1 then ["s" ++ toString (i + 1)]
  else if t = 2 then ["e" ++ toString (i + 1), "a" ++ toString (i + 1)]
  else ["a" ++ toString (i + 1)]

/-- `varNames` after `createInitialTableau`: `x1..xN` then, in constraint
order, the names pushed per row.  Note that for mixed constraint types this
ordering does NOT agree with the grouped column layout
(slack block, surplus block, artificial block). -/
def varNamesOf (inp : SimplexInput) : List String :=
  ((List.range inp.objective.length).map (fun i => "x" ++ toString (i + 1))) ++
    (List.range inp.constraints.length).flatMap (rowNames inp)

/-- Objective row before the Big-M adjustment: `-c_j` for maximize,
`+c_j` for minimize, zeros elsewhere. -/
def objRow0 (inp : SimplexInput) : List ℚ :=
  (List.range (numColsOf inp)).map
    (fun j => if j < inp.objective.length then
        (if inp.isMaximization then -(inp.objective.getD j 0) else inp.objective.getD j 0)
      else 0)

/-- The Big-M pass over the objective row: for every row of type `2` or `3`,
find the first artificial-block column holding `1` in that row, set the
objective entry there to `±M`, then subtract/add `M` times the row from the
entire objective row. -/
def bigMObjRow (inp : SimplexInput) (body : List (List ℚ)) : List ℚ :=
  (List.range inp.constraints.length).foldl
    (fun orow i =>
      let t := inp.constraintTypes.getD i 0
      if t = 2 ∨ t = 3 then
        let ri := body.getD i []
        let artLo := inp.objective.length + numSlackOf inp + numSurplusOf inp
        match ((List.range (totalVarsOf inp - artLo)).map (fun k => artLo + k)).find?
            (fun j => decide (ri.getD j 0 = 1)) with
        | none => orow
        | some j =>
          let o1 := orow.set j (if inp.isMaximization then BIG_M else -BIG_M)
          (List.range (numColsOf inp)).map
            (fun k => if inp.isMaximization then o1.getD k 0 - BIG_M * ri.getD k 0
              else o1.getD k 0 + BIG_M * ri.getD k 0)
      else orow)
    (objRow0 inp)

/-- The body rows of the initial tableau. -/
def bodyRows (inp : SimplexInput) : List (List ℚ) :=
  (List.range inp.constraints.length).map (bodyRow inp)

/-- `createInitialTableau`: body rows followed by the Big-M adjusted
objective row. -/
def initialTableau (inp : SimplexInput) : List (List ℚ) :=
  bodyRows inp ++ [bigMObjRow inp (bodyRows inp)]

/-- `findPivotColumn`: scan the objective row left to right; for maximize
keep the most negative entry strictly below `-EPSILON`, for minimize the
most positive above `EPSILON`; `none` models the `-1` sentinel. -/
def findPivotColumn (isMax : Bool) (tab : List (List ℚ)) : Option ℕ :=
  let orow := tab.getLastD []
  let numCols := (tab.headD []).length
  ((List.range (numCols - 1)).foldl
    (fun (acc : ℚ × Option ℕ) j =>
      let v := orow.getD j 0
      if isMax then (if v < acc.1 - EPSILON then (v, some j) else acc)
      else (if acc.1 + EPSILON < v then (v, some j) else acc))
    (0, none)).2

/-- `findPivotRow`: among body rows with pivot-column entry above `EPSILON`,
the first row attaining the minimal ratio `rhs / entry` (strict comparison,
so ties keep the earlier row); `none` models the `-1` sentinel. -/
def findPivotRow (tab : List (List ℚ)) (c : ℕ) : Option ℕ :=
  ((List.range (tab.length - 1)).foldl
    (fun (acc : ℚ × Option ℕ) i =>
      let row := tab.getD i []
      if EPSILON < row.getD c 0 then
        let ratio := row.getLastD 0 / row.getD c 0
        if ratio < acc.1 then (ratio, some i) else acc
      else acc)
    ((10 : ℚ) ^ 30, none)).2

/-- `performPivot`: record the new basic variable, normalize the pivot row,
and eliminate the pivot column from every other row (objective included). -/
def performPivot (tab : List (List ℚ)) (basic : List ℕ) (r c : ℕ) :
    List (List ℚ) × List ℕ :=
  let basic1 := basic.set r c
  let pe := (tab.getD r []).getD c 0
  let prow := (tab.getD r []).map (fun v => v / pe)
  let tab1 := (List.range tab.length).map
    (fun i => if i = r then prow
      else
        let row := tab.getD i []
        let f := row.getD c 0
        (List.range row.length).map (fun j => row.getD j 0 - f * prow.getD j 0))
  (tab1, basic1)

/-- How the pivoting loop stopped: `optimal` for the `pivotCol == -1` break,
`unbounded` for a failed ratio test, `exhausted` when the fixed iteration
budget ran out. -/
inductive LoopEnd where
  | optimal
  | unbounded
  | exhausted
deriving DecidableEq

/-- The pivoting `for` loop of `solve`, with its remaining iteration budget
as fuel (the source uses `maxIterations = 100`). -/
def pivotLoop (isMax : Bool) : ℕ → List (List ℚ) → List ℕ →
    List (List ℚ) × List ℕ × LoopEnd
  | 0, tab, basic => (tab, basic, .exhausted)
  | fuel + 1, tab, basic =>
    match findPivotColumn isMax tab with
    | none => (tab, basic, .optimal)
    | some c =>
      match findPivotRow tab c with
      | none => (tab, basic, .unbounded)
      | some r =>
        let p := performPivot tab basic r c
        pivotLoop isMax fuel p.1 p.2

/-- Tableau, basic variables and stop reason after the pivoting loop. -/
def simplexFinal (inp : SimplexInput) : List (List ℚ) × List ℕ × LoopEnd :=
  pivotLoop inp.isMaximization 100 (initialTableau inp) (initialBasicVars inp)

/-- Result of `SimplexSolver::solve` as observed by its caller: the two out
parameters plus the two public flags. -/
structure SimplexResult where
  solution : List ℚ
  objValue : ℚ
  isFeasible : Bool
  isUnbounded : Bool
deriving DecidableEq

/-- The post-loop artificial-variable check: some basic variable `bv` is in
range of `varNames`, its NAME begins with the character `a`, and its row's
rhs exceeds `1e-6`.  (The source identifies artificials by name, not by
column index.) -/
def artCheckFails (inp : SimplexInput) (tab : List (List ℚ)) (basic : List ℕ) : Bool :=
  (List.range basic.length).any
    (fun i =>
      let bv := basic.getD i 0
      decide (bv < (varNamesOf inp).length) &&
        (((varNamesOf inp).getD bv "").front == 'a') &&
        decide (FEAS_TOL < (tab.getD i []).getLastD 0))

/-- Solution extraction: start from the all-zero vector and copy each basic
original variable's row rhs into its slot. -/
def extractSolution (inp : SimplexInput) (tab : List (List ℚ)) (basic : List ℕ) :
    List ℚ :=
  (List.range basic.length).foldl
    (fun sol i =>
      let bv := basic.getD i 0
      if bv < inp.objective.length then sol.set bv ((tab.getD i []).getLastD 0)
      else sol)
    (List.replicate inp.objective.length 0)

/-- Recomputation of the objective value from the original coefficients. -/
def objectiveValue (inp : SimplexInput) (sol : List ℚ) : ℚ :=
  (List.range inp.objective.length).foldl
    (fun a i => a + inp.objective.getD i 0 * sol.getD i 0) 0

/-- Everything `solve` does after the pivoting loop stops (by optimality or
by running out of iterations): the artificial check, then extraction. -/
def postLoop (inp : SimplexInput) (tab : List (List ℚ)) (basic : List ℕ) :
    SimplexResult :=
  if artCheckFails inp tab basic then
    { solution := [], objValue := 0, isFeasible := false, isUnbounded := false }
  else
    let sol := extractSolution inp tab basic
    { solution := sol, objValue := objectiveValue inp sol,
      isFeasible := true, isUnbounded := false }

/-- `SimplexSolver::solve` end to end. -/
def simplexSolve (inp : SimplexInput) : SimplexResult :=
  let f := simplexFinal inp
  if f.2.2 = LoopEnd.unbounded then
    { solution := [], objValue := 0, isFeasible := true, isUnbounded := true }
  else postLoop inp f.1 f.2.1

/-- `TreeNode` of the source, with its default member initializers. -/
structure TreeNode where
  nodeId : Int
  parentId : Int
  branchConstraint : String
  depth : ℕ
  solution : List ℚ
  objValue : ℚ
  status : String
  leftChild : Int
  rightChild : Int
  isOptimal : Bool
deriving DecidableEq

/-- The default-constructed `TreeNode()`. -/
def TreeNode.default0 : TreeNode :=
  { nodeId := -1, parentId := -1, branchConstraint := "", depth := 0,
    solution := [], objValue := 0, status := "", leftChild := -1,
    rightChild := -1, isOptimal := false }

/-- `QueueItem` of the source. -/
structure QueueItem where
  extraCons : List (List ℚ)
  extraRhs : List ℚ
  extraTypes : List ℕ
  bound : ℚ
  parentId : Int
  branchInfo : String
  depth : ℕ
deriving DecidableEq

/-- The problem data held by a `BranchAndBound` object (set up once by
input collection and immutable during `solve`). -/
structure BBProblem where
  objective : List ℚ
  constraints : List (List ℚ)
  rhs : List ℚ
  constraintTypes : List ℕ
  isMaximization : Bool
  integerVars : List ℕ
deriving DecidableEq

/-- `numVariables` of a `BranchAndBound` object. -/
def BBProblem.numVariables (P : BBProblem) : ℕ := P.objective.length

/-- Read access `m[k]` on the `std::map<int, TreeNode>`: the stored node, or
a default-constructed one when the key is absent. -/
def mapGet (m : List (Int × TreeNode)) (k : Int) : TreeNode :=
  ((m.find? (fun p => p.1 == k)).map Prod.snd).getD TreeNode.default0

/-- Write access `m[k] = v` on the `std::map<int, TreeNode>`: update in
place when the key exists, insert otherwise. -/
def mapSet (m : List (Int × TreeNode)) (k : Int) (v : TreeNode) :
    List (Int × TreeNode) :=
  if m.any (fun p => p.1 == k) then
    m.map (fun p => if p.1 == k then (k, v) else p)
  else m ++ [(k, v)]

/-- Whether the map holds an entry for `k`. -/
def mapHas (m : List (Int × TreeNode)) (k : Int) : Bool :=
  m.any (fun p => p.1 == k)

/-- `treeNodes[k].status = st` (default-inserting when absent, like
`std::map::operator[]`). -/
def setStatus (m : List (Int × TreeNode)) (k : Int) (st : String) :
    List (Int × TreeNode) :=
  mapSet m k { mapGet m k with status := st }

/-- The fractionality test `fabs(val - floor(val + 0.5)) > 1e-6` shared by
`isIntegerSolution` and `findBranchingVariable`. -/
def fracTest (v : ℚ) : Bool :=
  decide (FEAS_TOL < |v - ((Rat.floor (v + 1 / 2) : ℤ) : ℚ)|)

/-- `BranchAndBound::isIntegerSolution`: an empty solution is not integer;
otherwise every variable listed in `integerVars` must pass the tolerance
test. -/
def isIntegerSolution (P : BBProblem) (sol : List ℚ) : Bool :=
  if sol = [] then false
  else P.integerVars.all (fun idx => !fracTest (sol.getD idx 0))

/-- `BranchAndBound::findBranchingVariable`: the first `integerVars` entry
whose value is fractional, with its value; `(-1, 0)` when none is. -/
def findBranchingVariable (P : BBProblem) (sol : List ℚ) : Int × ℚ :=
  match P.integerVars.find? (fun idx => fracTest (sol.getD idx 0)) with
  | some idx => ((idx : ℤ), sol.getD idx 0)
  | none => (-1, 0)

/-- The `SimplexInput` built by `solveSubproblem`: the root problem data
with the branch constraints appended. -/
def subInput (P : BBProblem) (eC : List (List ℚ)) (eR : List ℚ)
    (eT : List ℕ) : SimplexInput :=
  { objective := P.objective, constraints := P.constraints ++ eC,
    rhs := P.rhs ++ eR, constraintTypes := P.constraintTypes ++ eT,
    isMaximization := P.isMaximization }

/-- `BranchAndBound::solveSubproblem`: a fresh `SimplexSolver` on the
augmented system.  Only the six immutable problem fields flow in; none of
the search state (`bestSolution`, `bestObjValue`, `iteration`, `treeNodes`)
is read. -/
def solveSubproblem (P : BBProblem) (eC : List (List ℚ)) (eR : List ℚ)
    (eT : List ℕ) : SimplexResult :=
  simplexSolve (subInput P eC eR eT)

/-- Strict "comes before" order used to sort the frontier: larger bound
first when maximizing, smaller bound first when minimizing. -/
def qBefore (isMax : Bool) (a b : QueueItem) : Bool :=
  if isMax then decide (b.bound < a.bound) else decide (a.bound < b.bound)

/-- Stable insertion used by `sortQueue`. -/
def insertItem (isMax : Bool) (x : QueueItem) : List QueueItem → List QueueItem
  | [] => [x]
  | y :: ys => if qBefore isMax y x then y :: insertItem isMax x ys else x :: y :: ys

/-- The best-first re-sort of the queue at the top of each iteration
(`std::sort` with the bound comparator; tie order is unspecified there and
modelled as stable). -/
def sortQueue (isMax : Bool) (q : List QueueItem) : List QueueItem :=
  q.foldr (insertItem isMax) []

/-- The parent-chain walk that rebuilds `optimalPath` after a new incumbent
(`while (traceId != -1)`), with the map size as a fuel bound on the chain
length. -/
def tracePath (m : List (Int × TreeNode)) : ℕ → Int → List Int
  | 0, _ => []
  | fuel + 1, tid =>
    if tid = -1 then []
    else tracePath m fuel (mapGet m tid).parentId ++ [tid]

/-- The state mutated by `BranchAndBound::solve` across loop iterations. -/
structure BBState where
  queue : List QueueItem
  treeNodes : List (Int × TreeNode)
  bestSolution : List ℚ
  bestObjValue : ℚ
  iteration : ℕ
  nodeCounter : ℕ
  optimalPath : List Int
deriving DecidableEq

/-- One iteration of the `while (!queue.empty())` loop.  The second
component records the single `treeNodes[id].status = ...` assignment the
iteration performs (`none` for the guarded depth-0 skip). -/
def bbStep (P : BBProblem) (s : BBState) : BBState × Option (Int × String) :=
  let iter := s.iteration + 1
  match sortQueue P.isMaximization s.queue with
  | [] => (s, none)
  | cur :: rest =>
    if cur.depth = 0 ∧ 1 < iter then
      ({ s with iteration := iter, queue := rest }, none)
    else
      let res := solveSubproblem P cur.extraCons cur.extraRhs cur.extraTypes
      let cid : Int := if 0 < cur.depth then ((s.nodeCounter + 1 : ℕ) : ℤ) else 0
      let nc : ℕ := if 0 < cur.depth then s.nodeCounter + 1 else s.nodeCounter
      let tn : List (Int × TreeNode) :=
        if 0 < cur.depth then
          let node : TreeNode :=
            { nodeId := cid, parentId := cur.parentId,
              branchConstraint := cur.branchInfo, depth := cur.depth,
              solution := res.solution, objValue := res.objValue, status := "",
              leftChild := -1, rightChild := -1, isOptimal := false }
          let tn1 := mapSet s.treeNodes cid node
          let par := mapGet tn1 cur.parentId
          if par.leftChild = -1 then
            mapSet tn1 cur.parentId { par with leftChild := cid }
          else
            mapSet tn1 cur.parentId { par with rightChild := cid }
        else s.treeNodes
      if res.solution = [] then
        ({ s with
            iteration := iter, queue := rest, nodeCounter := nc,
            treeNodes := setStatus tn cid "INFEASIBLE" },
         some (cid, "INFEASIBLE"))
      else if (if P.isMaximization then res.objValue ≤ s.bestObjValue
          else s.bestObjValue ≤ res.objValue) then
        ({ s with
            iteration := iter, queue := rest, nodeCounter := nc,
            treeNodes := setStatus tn cid "PRUNED" },
         some (cid, "PRUNED"))
      else if isIntegerSolution P res.solution then
        let tnI := setStatus tn cid "INTEGER"
        if (if P.isMaximization then s.bestObjValue < res.objValue
            else res.objValue < s.bestObjValue) then
          let path := tracePath tnI (tnI.length + 1) cid
          let tnI2 := tnI.map (fun p => (p.1, { p.2 with isOptimal := path.contains p.1 }))
          ({ s with
              iteration := iter, queue := rest, nodeCounter := nc,
              treeNodes := tnI2, bestSolution := res.solution,
              bestObjValue := res.objValue, optimalPath := path },
           some (cid, "INTEGER"))
        else
          ({ s with
              iteration := iter, queue := rest, nodeCounter := nc,
              treeNodes := tnI },
           some (cid, "INTEGER"))
      else
        let fb := findBranchingVariable P res.solution
        let floorVal : Int := Rat.floor fb.2
        let ceilVal : Int := Rat.ceil fb.2
        let coef := (List.replicate P.numVariables (0 : ℚ)).set fb.1.toNat 1
        let left : QueueItem :=
          { extraCons := cur.extraCons ++ [coef],
            extraRhs := cur.extraRhs ++ [(floorVal : ℚ)],
            extraTypes := cur.extraTypes ++ [1], bound := res.objValue,
            parentId := cid,
            branchInfo := "x" ++ toString (fb.1 + 1) ++ " <= " ++ toString floorVal,
            depth := cur.depth + 1 }
        let right : QueueItem :=
          { extraCons := cur.extraCons ++ [coef],
            extraRhs := cur.extraRhs ++ [(ceilVal : ℚ)],
            extraTypes := cur.extraTypes ++ [2], bound := res.objValue,
            parentId := cid,
            branchInfo := "x" ++ toString (fb.1 + 1) ++ " >= " ++ toString ceilVal,
            depth := cur.depth + 1 }
        ({ s with
            iteration := iter, queue := rest ++ [left, right],
            nodeCounter := nc, treeNodes := setStatus tn cid "BRANCHED" },
         some (cid, "BRANCHED"))

/-- The main loop, fueled (the source loops until the queue empties). -/
def bbLoop (P : BBProblem) : ℕ → BBState → BBState
  | 0, s => s
  | fuel + 1, s => if s.queue = [] then s else bbLoop P fuel (bbStep P s).1

/-- The root relaxation result computed at the top of
`BranchAndBound::solve`. -/
def rootResult (P : BBProblem) : SimplexResult := solveSubproblem P [] [] []

/-- The root `TreeNode` as stored into `treeNodes[0]`. -/
def rootNode (P : BBProblem) : TreeNode :=
  { nodeId := 0, parentId := -1, branchConstraint := "ROOT", depth := 0,
    solution := (rootResult P).solution, objValue := (rootResult P).objValue,
    status := "", leftChild := -1, rightChild := -1, isOptimal := false }

/-- Search state right after the root node is stored, before any of the
three early outcomes is applied (mirrors the freshly constructed
`BranchAndBound` members plus `treeNodes[0] = root`). -/
def bbRootState (P : BBProblem) : BBState :=
  { queue := [], treeNodes := mapSet [] 0 (rootNode P), bestSolution := [],
    bestObjValue := 0, iteration := 0, nodeCounter := 0, optimalPath := [] }

/-- State entering the main loop in the branching case: root marked
BRANCHED, incumbent initialized to `∓1e30`, queue seeded with the depth-0
item. -/
def bbInitState (P : BBProblem) : BBState :=
  { bbRootState P with
    treeNodes := setStatus (bbRootState P).treeNodes 0 "BRANCHED",
    bestObjValue := if P.isMaximization then -(10 ^ 30) else 10 ^ 30,
    queue := [{ extraCons := [], extraRhs := [], extraTypes := [],
                bound := (rootResult P).objValue, parentId := 0,
                branchInfo := "", depth := 0 }] }

/-- `BranchAndBound::solve` end to end, with fuel for the main loop. -/
def bbSolve (P : BBProblem) (fuel : ℕ) : BBState :=
  if (rootResult P).solution = [] then
    { bbRootState P with
      treeNodes := setStatus (bbRootState P).treeNodes 0 "INFEASIBLE" }
  else if isIntegerSolution P (rootResult P).solution then
    { bbRootState P with
      treeNodes := mapSet (bbRootState P).treeNodes 0
        { rootNode P with status := "INTEGER", isOptimal := true },
      bestSolution := (rootResult P).solution,
      bestObjValue := (rootResult P).objValue,
      optimalPath := [0] }
  else bbLoop P fuel (bbInitState P)

/-- The spec's pure-ILP scenario: maximize `5 x1 + 4 x2` subject to
`x1 + x2 <= 5` and `10 x1 + 6 x2 <= 45`, both variables integer. -/
def exampleILP : BBProblem :=
  { objective := [5, 4], constraints := [[1, 1], [10, 6]], rhs := [5, 45],
    constraintTypes := [1, 1], isMaximization := true, integerVars := [0, 1] }

/-- The spec's unbounded scenario: maximize `x1` subject only to `x1 >= 0`. -/
def unboundedILP : BBProblem :=
  { objective := [1], constraints := [[1]], rhs := [0], constraintTypes := [2],
    isMaximization := true, integerVars := [0] }

/-- Beale's cycling example (as a maximization): under the source's pivot
rules the tableau cycles, so the 100-iteration budget runs out. -/
def bealeInput : SimplexInput :=
  { objective := [3 / 4, -150, 1 / 50, -6],
    constraints := [[1 / 4, -60, -1 / 25, 9], [1 / 2, -90, -1 / 50, 3], [0, 0, 1, 0]],
    rhs := [0, 0, 1], constraintTypes := [1, 1, 1], isMaximization := true }

/-- An infeasible system whose first constraint is `>=` and second `<=`:
maximize `x1` subject to `x1 >= 5` and `x1 <= 2`. -/
def geLeInput : SimplexInput :=
  { objective := [1], constraints := [[1], [1]], rhs := [5, 2],
    constraintTypes := [2, 1], isMaximization := true }

/-- A single `<=` constraint with negative right-hand side. -/
def negRhsInput : SimplexInput :=
  { objective := [1], constraints := [[1]], rhs := [-1], constraintTypes := [1],
    isMaximization := true }

/-- Maximize `x1` subject to `x1 <= 3/2`, `x1` integer: the root relaxation
is fractional, so the search enters the main loop. -/
def halfILP : BBProblem :=
  { objective := [1], constraints := [[1]], rhs := [3 / 2], constraintTypes := [1],
    isMaximization := true, integerVars := [0] }

/-- Maximize `x1` subject to `x1 <= 2`, `x1` integer: the root relaxation
is already integral. -/
def intRootILP : BBProblem :=
  { objective := [1], constraints := [[1]], rhs := [2], constraintTypes := [1],
    isMaximization := true, integerVars := [0] }

/-- The depth-1 queue item of `pruneStateEg`. -/
def pruneItemEg : QueueItem :=
  { extraCons := [[1]], extraRhs := [1], extraTypes := [1], bound := 0,
    parentId := 0, branchInfo := "x1 <= 1", depth := 1 }

/-- A state about to process a depth-1 item while the incumbent is already
100, so the bound check must prune. -/
def pruneStateEg : BBState :=
  { queue := [{ extraCons := [[1]], extraRhs := [1], extraTypes := [1], bound := 0,
                parentId := 0, branchInfo := "x1 <= 1", depth := 1 }],
    treeNodes := mapSet [] 0 { rootNode halfILP with status := "BRANCHED" },
    bestSolution := [1], bestObjValue := 100, iteration := 3, nodeCounter := 0,
    optimalPath := [] }

theorem mapGet_mapSet_self (m : List (Int × TreeNode)) (k : Int) (v : TreeNode) :
    mapGet (mapSet m k v) k = v := by
  unfold mapGet mapSet
  by_cases h : m.any (fun p => p.1 == k) = true
  · rw [if_pos h]
    induction m with
    | nil => simp at h
    | cons p m ih =>
      simp only [List.map_cons, List.find?]
      by_cases hp : p.1 == k
      · simp [hp]
      · simp only [hp, if_neg, Bool.false_eq_true, not_false_eq_true, if_neg hp]
        simp only [List.any_cons, hp, Bool.false_or] at h
        simpa [hp] using ih h
  · rw [if_neg h]
    have hnone : m.find? (fun p => p.1 == k) = none := by
      rw [List.find?_eq_none]
      intro x hx hc
      exact h (List.any_eq_true.mpr ⟨x, hx, hc⟩)
    rw [List.find?_append, hnone]
    simp

/-- A helper: reading back the slot just written by `List.set`. -/
theorem getD_set_written (l : List ℚ) (j : ℕ) (r : ℚ) (h : j < l.length) :
    (l.set j r).getD j 0 = r := by
  have hj : j < (l.set j r).length := by simpa using h
  rw [List.getD_eq_getElem _ _ hj]
  exact List.getElem_set_self _

/-- C9: the relaxation solve reads only the six immutable problem fields;
two `BranchAndBound` objects that agree on objective, constraints, rhs,
constraint types and direction produce identical subproblem results for the
same extra branch constraints, whatever their other data (such as
`integerVars`) is. -/
theorem C9_relaxation_deterministic (P1 P2 : BBProblem) (eC : List (List ℚ))
    (eR : List ℚ) (eT : List ℕ)
    (hobj : P1.objective = P2.objective)
    (hcons : P1.constraints = P2.constraints)
    (hrhs : P1.rhs = P2.rhs)
    (htypes : P1.constraintTypes = P2.constraintTypes)
    (hdir : P1.isMaximization = P2.isMaximization) :
    solveSubproblem P1 eC eR eT = solveSubproblem P2 eC eR eT := by
  unfold solveSubproblem subInput
  rw [hobj, hcons, hrhs, htypes, hdir]

/-- Witness for C9 at a concrete pair of problems differing only in
`integerVars`. -/
theorem C9_relaxation_deterministic_witness :
    solveSubproblem exampleILP [[1, 0]] [3] [1] =
      solveSubproblem { exampleILP with integerVars := [1] } [[1, 0]] [3] [1] :=
  C9_relaxation_deterministic exampleILP { exampleILP with integerVars := [1] }
    [[1, 0]] [3] [1] rfl rfl rfl rfl rfl

/-- C10: on a non-empty solution of sufficient length whose integer
variables are in range, `findBranchingVariable` returns a valid variable
index exactly when `isIntegerSolution` is false, and the `-1` sentinel
exactly when it is true. -/
theorem C10_branching_variable_in_range (P : BBProblem) (sol : List ℚ)
    (hne : sol ≠ []) (hlen : P.numVariables ≤ sol.length)
    (hvars : ∀ idx ∈ P.integerVars, idx < P.numVariables) :
    (isIntegerSolution P sol = false →
      0 ≤ (findBranchingVariable P sol).1 ∧
        (findBranchingVariable P sol).1 < (P.numVariables : ℤ)) ∧
    (isIntegerSolution P sol = true → (findBranchingVariable P sol).1 = -1) := by
  constructor
  · intro hfalse
    unfold isIntegerSolution at hfalse
    rw [if_neg hne] at hfalse
    have hex : ∃ idx ∈ P.integerVars, fracTest (sol.getD idx 0) = true := by
      by_contra hc
      push_neg at hc
      have hall : P.integerVars.all (fun idx => !fracTest (sol.getD idx 0)) = true := by
        rw [List.all_eq_true]
        intro x hx
        have hfx : fracTest (sol.getD x 0) = false := by
          cases hfx2 : fracTest (sol.getD x 0)
          · rfl
          · exact absurd hfx2 (hc x hx)
        show (!fracTest (sol.getD x 0)) = true
        rw [hfx]
        rfl
      rw [hall] at hfalse
      exact Bool.noConfusion hfalse
    have hsome : (P.integerVars.find? (fun idx => fracTest (sol.getD idx 0))).isSome := by
      rw [List.find?_isSome]
      exact hex
    obtain ⟨idx, hidx⟩ := Option.isSome_iff_exists.mp hsome
    have hmem : idx ∈ P.integerVars := List.mem_of_find?_eq_some hidx
    have hidxlt : idx < P.numVariables := hvars idx hmem
    unfold findBranchingVariable
    rw [hidx]
    refine ⟨Int.ofNat_nonneg idx, ?_⟩
    show (idx : ℤ) < (P.numVariables : ℤ)
    exact_mod_cast hidxlt
  · intro htrue
    unfold isIntegerSolution at htrue
    rw [if_neg hne] at htrue
    have hnone : P.integerVars.find? (fun idx => fracTest (sol.getD idx 0)) = none := by
      rw [List.find?_eq_none]
      intro x hx
      have hfx := List.all_eq_true.mp htrue x hx
      cases hb : fracTest (sol.getD x 0) with
      | false => simp [hb]
      | true =>
        rw [hb] at hfx
        exact absurd hfx (by decide)
    unfold findBranchingVariable
    rw [hnone]

/-- Witness for C10 at the spec scenario's problem and the fractional
vector `(3/2, 1)`. -/
theorem C10_branching_variable_in_range_witness :
    0 ≤ (findBranchingVariable exampleILP [3 / 2, 1]).1 ∧
      (findBranchingVariable exampleILP [3 / 2, 1]).1 < (exampleILP.numVariables : ℤ) :=
  (C10_branching_variable_in_range exampleILP [3 / 2, 1] (by decide) (by decide)
    (by decide)).1 (by decide)

/-- C7: when the root relaxation is feasible and already integral, the
search records it as the incumbent, marks the root INTEGER, and returns at
once: one tree node, an empty frontier and zero loop iterations, for every
fuel value. -/
theorem C7_root_integer_short_circuit (P : BBProblem) (fuel : ℕ)
    (hfeas : (rootResult P).solution ≠ [])
    (hint : isIntegerSolution P (rootResult P).solution = true) :
    (bbSolve P fuel).bestSolution = (rootResult P).solution ∧
    (bbSolve P fuel).bestObjValue = (rootResult P).objValue ∧
    (bbSolve P fuel).treeNodes =
      [(0, { rootNode P with status := "INTEGER", isOptimal := true })] ∧
    (bbSolve P fuel).queue = [] ∧
    (bbSolve P fuel).iteration = 0 := by
  unfold bbSolve
  rw [if_neg hfeas, if_pos hint]
  refine ⟨rfl, rfl, ?_, rfl, rfl⟩
  show mapSet (bbRootState P).treeNodes 0 _ = _
  rfl

/-- Witness for C7: maximize `x1` subject to `x1 <= 2` has the integral
root relaxation `x1 = 2`. -/
theorem C7_root_integer_short_circuit_witness :
    (bbSolve intRootILP 100).bestSolution = (rootResult intRootILP).solution ∧
    (bbSolve intRootILP 100).bestObjValue = (rootResult intRootILP).objValue ∧
    (bbSolve intRootILP 100).treeNodes =
      [(0, { rootNode intRootILP with status := "INTEGER", isOptimal := true })] ∧
    (bbSolve intRootILP 100).queue = [] ∧
    (bbSolve intRootILP 100).iteration = 0 :=
  C7_root_integer_short_circuit intRootILP 100 (by decide) (by decide)

/-- C2 counterexample: for `x1 <= -1` the initial tableau keeps the
negative right-hand side `-1`; no sign flip or relation toggle happens, so
not every row of the initial tableau has a non-negative rhs entry. -/
theorem C2_counterexample :
    ((initialTableau negRhsInput).getD 0 []).getLastD 0 = -1 ∧
    ¬ (0 ≤ ((initialTableau negRhsInput).getD 0 []).getLastD 0) := by decide

/-- C2 as the code actually behaves: `createInitialTableau` copies each
row's right-hand side into the tableau unchanged (and never touches the
relation types), so negative inputs stay negative. -/
theorem C2_rhs_copied_unchanged (inp : SimplexInput) (i : ℕ)
    (h : i < inp.constraints.length) :
    ((initialTableau inp).getD i []).getD (numColsOf inp - 1) 0 = inp.rhs.getD i 0 := by
  have hlen : i < (bodyRows inp).length := by
    simpa [bodyRows] using h
  rw [initialTableau, List.getD_append _ _ _ _ hlen]
  have hrow : (bodyRows inp).getD i [] = bodyRow inp i := by
    rw [List.getD_eq_getElem _ _ hlen]
    simp [bodyRows]
  rw [hrow]
  have hbase : ∀ l : List ℚ, l.length = numColsOf inp →
      (l.set (numColsOf inp - 1) (inp.rhs.getD i 0)).getD (numColsOf inp - 1) 0
        = inp.rhs.getD i 0 := by
    intro l hl
    refine getD_set_written l _ _ ?_
    rw [hl]
    show totalVarsOf inp + 1 - 1 < totalVarsOf inp + 1
    exact Nat.lt_succ_self _
  simp only [bodyRow]
  split
  · exact hbase _ (by simp)
  · split
    · exact hbase _ (by simp)
    · exact hbase _ (by simp)

/-- Witness for C2 at the concrete negative-rhs input. -/
theorem C2_rhs_copied_unchanged_witness :
    ((initialTableau negRhsInput).getD 0 []).getD (numColsOf negRhsInput - 1) 0
      = negRhsInput.rhs.getD 0 0 :=
  C2_rhs_copied_unchanged negRhsInput 0 (by decide)

/-- C3 counterexample: for maximize `x1` with `x1 >= 0` the relaxation is
detected unbounded by the ratio test (the simplex flag is set), yet the
whole solve records the root as INFEASIBLE — no UNBOUNDED status is ever
reported. -/
theorem C3_counterexample :
    (rootResult unboundedILP).isUnbounded = true ∧
    (mapGet (bbSolve unboundedILP 100).treeNodes 0).status = "INFEASIBLE" ∧
    (mapGet (bbSolve unboundedILP 100).treeNodes 0).status ≠ "UNBOUNDED" := by decide

/-- C3 as the code actually behaves: the failed ratio test sets
`isUnbounded` and clears the solution inside the simplex solver, but the
branch-and-bound layer only sees the empty solution and terminates with the
root marked INFEASIBLE as its single tree node. -/
theorem C3_unbounded_collapsed_to_infeasible :
    (rootResult unboundedILP).isUnbounded = true ∧
    (rootResult unboundedILP).solution = [] ∧
    (bbSolve unboundedILP 100).treeNodes =
      [(0, { rootNode unboundedILP with status := "INFEASIBLE" })] ∧
    (bbSolve unboundedILP 100).bestSolution = [] ∧
    (bbSolve unboundedILP 100).iteration = 0 := by decide

/-- C5: on maximize `x1` with `x1 >= 5`, `x1 <= 2` (a `>=` row before a
`<=` row), the artificial variable of row 0 sits in column 3 (the start of
the artificial block) and stays basic at value `3 > 1e-6`, yet the solver
reports the system feasible with solution `x1 = 2` and objective `2`: the
name-based artificial check looks at `varNames[3] = "s2"` and misses it. -/
theorem C5_infeasibility_undetected :
    (simplexFinal geLeInput).2.1 = [3, 0] ∧
    geLeInput.objective.length + numSlackOf geLeInput + numSurplusOf geLeInput = 3 ∧
    (varNamesOf geLeInput).getD 3 "" = "s2" ∧
    ((simplexFinal geLeInput).1.getD 0 []).getLastD 0 = 3 ∧
    FEAS_TOL < 3 ∧
    (simplexSolve geLeInput).isFeasible = true ∧
    (simplexSolve geLeInput).solution = [2] := by decide

/-- C8 counterexample: on maximize `x1`, `x1 <= 3/2`, `x1` integer, the
root node's status is already the terminal value BRANCHED before the main
loop starts, and the first loop iteration selects the depth-0 queue item —
node 0 again — and assigns node 0's status a second time. -/
theorem C8_counterexample :
    (mapGet (bbInitState halfILP).treeNodes 0).status = "BRANCHED" ∧
    (bbStep halfILP (bbInitState halfILP)).2 = some (0, "BRANCHED") := by decide


/-- C6: whenever the loop body actually processes an item (it is not the
guarded depth-0 revisit), its relaxation is feasible, and the relaxation
objective fails to strictly improve the incumbent (in the direction of
optimization), the iteration marks the processed node PRUNED and pushes no
children: the resulting queue is exactly the sorted queue minus the item. -/
theorem C6_bound_prune (P : BBProblem) (s : BBState) (cur : QueueItem)
    (rest : List QueueItem)
    (hq : sortQueue P.isMaximization s.queue = cur :: rest)
    (hskip : ¬ (cur.depth = 0 ∧ 1 < s.iteration + 1))
    (hfeas : (solveSubproblem P cur.extraCons cur.extraRhs cur.extraTypes).solution ≠ [])
    (hbound : if P.isMaximization
        then (solveSubproblem P cur.extraCons cur.extraRhs cur.extraTypes).objValue
          ≤ s.bestObjValue
        else s.bestObjValue
          ≤ (solveSubproblem P cur.extraCons cur.extraRhs cur.extraTypes).objValue) :
    (bbStep P s).2 =
      some (if 0 < cur.depth then ((s.nodeCounter + 1 : ℕ) : ℤ) else 0, "PRUNED") ∧
    (bbStep P s).1.queue = rest ∧
    (mapGet (bbStep P s).1.treeNodes
      (if 0 < cur.depth then ((s.nodeCounter + 1 : ℕ) : ℤ) else 0)).status = "PRUNED" := by
  simp only [bbStep, hq]
  rw [if_neg hskip, if_neg hfeas, if_pos hbound]
  refine ⟨rfl, rfl, ?_⟩
  rw [setStatus, mapGet_mapSet_self]

/-- Witness for C6: a depth-1 node whose relaxation value 1 cannot beat the
incumbent value 100. -/
theorem C6_bound_prune_witness :
    (bbStep halfILP pruneStateEg).2 =
      some (if 0 < pruneItemEg.depth then ((pruneStateEg.nodeCounter + 1 : ℕ) : ℤ) else 0,
        "PRUNED") ∧
    (bbStep halfILP pruneStateEg).1.queue = [] ∧
    (mapGet (bbStep halfILP pruneStateEg).1.treeNodes
      (if 0 < pruneItemEg.depth then ((pruneStateEg.nodeCounter + 1 : ℕ) : ℤ) else 0)).status
      = "PRUNED" :=
  C6_bound_prune halfILP pruneStateEg pruneItemEg [] (by decide) (by decide)
    (by decide) (by decide)

/-- C8, the part that holds: a loop iteration processing a depth-positive
item writes the status of exactly one node — the freshly created node,
whose id `nodeCounter + 1` is not yet a key of the tree — and that status
is one of the four terminal values.  (The root is the exception recorded in
the counterexample: its status is assigned before the loop and again at
iteration 1.) -/
theorem C8_fresh_node_status_once (P : BBProblem) (s : BBState) (cur : QueueItem)
    (rest : List QueueItem)
    (hq : sortQueue P.isMaximization s.queue = cur :: rest)
    (hd : cur.depth ≠ 0)
    (hkeys : ∀ p ∈ s.treeNodes, p.1 ≤ (s.nodeCounter : ℤ)) :
    (∃ st, (bbStep P s).2 = some (((s.nodeCounter + 1 : ℕ) : ℤ), st) ∧
        st ∈ ["INFEASIBLE", "PRUNED", "INTEGER", "BRANCHED"]) ∧
    mapHas s.treeNodes ((s.nodeCounter + 1 : ℕ) : ℤ) = false := by
  have hpos : 0 < cur.depth := Nat.pos_of_ne_zero hd
  constructor
  · simp only [bbStep, hq]
    rw [if_neg (fun h => hd h.1)]
    simp only [if_pos hpos]
    by_cases h1 : (solveSubproblem P cur.extraCons cur.extraRhs cur.extraTypes).solution = []
    · rw [if_pos h1]
      exact ⟨"INFEASIBLE", rfl, by simp⟩
    · rw [if_neg h1]
      by_cases h2 : (if P.isMaximization
          then (solveSubproblem P cur.extraCons cur.extraRhs cur.extraTypes).objValue
            ≤ s.bestObjValue
          else s.bestObjValue
            ≤ (solveSubproblem P cur.extraCons cur.extraRhs cur.extraTypes).objValue)
      · rw [if_pos h2]
        exact ⟨"PRUNED", rfl, by simp⟩
      · rw [if_neg h2]
        by_cases h3 : isIntegerSolution P
            (solveSubproblem P cur.extraCons cur.extraRhs cur.extraTypes).solution = true
        · rw [if_pos h3]
          by_cases h4 : (if P.isMaximization
              then s.bestObjValue
                < (solveSubproblem P cur.extraCons cur.extraRhs cur.extraTypes).objValue
              else (solveSubproblem P cur.extraCons cur.extraRhs cur.extraTypes).objValue
                < s.bestObjValue)
          · rw [if_pos h4]
            exact ⟨"INTEGER", rfl, by simp⟩
          · rw [if_neg h4]
            exact ⟨"INTEGER", rfl, by simp⟩
        · rw [if_neg h3]
          exact ⟨"BRANCHED", rfl, by simp⟩
  · simp only [mapHas, List.any_eq_false]
    intro p hp hc
    have hle := hkeys p hp
    have heq : p.1 = ((s.nodeCounter + 1 : ℕ) : ℤ) := eq_of_beq hc
    rw [heq] at hle
    push_cast at hle
    omega

/-- Witness for C8 at the depth-1 item of `pruneStateEg` (tree keys so far:
only the root id 0, node counter 0). -/
theorem C8_fresh_node_status_once_witness :
    (∃ st, (bbStep halfILP pruneStateEg).2 =
        some (((pruneStateEg.nodeCounter + 1 : ℕ) : ℤ), st) ∧
        st ∈ ["INFEASIBLE", "PRUNED", "INTEGER", "BRANCHED"]) ∧
    mapHas pruneStateEg.treeNodes ((pruneStateEg.nodeCounter + 1 : ℕ) : ℤ) = false :=
  C8_fresh_node_status_once halfILP pruneStateEg pruneItemEg [] (by decide) (by decide)
    (by decide)

/-- C4 counterexample: on Beale's cycling example the pivoting loop runs
through all 100 iterations without the optimality test ever succeeding
(column 4 would still be chosen afterwards), and `solve` nevertheless
extracts and returns the tableau's solution `(0, 0, 0, 0)` as if it were
final — no iteration-limit status is surfaced. -/
theorem C4_counterexample :
    (simplexFinal bealeInput).2.2 = LoopEnd.exhausted ∧
    findPivotColumn true (simplexFinal bealeInput).1 = some 4 ∧
    (simplexSolve bealeInput).solution = [0, 0, 0, 0] := by decide

/-- C4 as the code actually behaves: when the pivoting loop stops because
its 100-iteration budget is exhausted (any stop other than the unbounded
exit), `solve` proceeds exactly as in the optimal case — the artificial
check followed by solution extraction — so no distinct iteration-limit
status reaches the caller. -/
theorem C4_cap_falls_through (inp : SimplexInput)
    (h : (simplexFinal inp).2.2 = LoopEnd.exhausted) :
    simplexSolve inp = postLoop inp (simplexFinal inp).1 (simplexFinal inp).2.1 := by
  simp only [simplexSolve]
  rw [h]
  rw [if_neg (by decide : ¬ (LoopEnd.exhausted = LoopEnd.unbounded))]

/-- Witness for C4 at Beale's cycling example. -/
theorem C4_cap_falls_through_witness :
    (simplexFinal bealeInput).2.2 = LoopEnd.exhausted ∧
    simplexSolve bealeInput =
      postLoop bealeInput (simplexFinal bealeInput).1 (simplexFinal bealeInput).2.1 :=
  ⟨by decide, C4_cap_falls_through bealeInput (by decide)⟩

/-- C1: on the spec's pure-ILP scenario the branch-and-bound solve ends
with incumbent `x1 = 3, x2 = 2` of objective value 23, found at tree node 1
which is marked INTEGER and lies on the optimal path. -/
theorem C1_pure_ilp_end_to_end :
    (bbSolve exampleILP 100).bestSolution = [3, 2] ∧
    (bbSolve exampleILP 100).bestObjValue = 23 ∧
    (mapGet (bbSolve exampleILP 100).treeNodes 1).status = "INTEGER" := by decide
